import Mathlib

/-!
Verification development for `requests_gssapi/gssapi_.py` (requests-gssapi).

The Python module is embedded shallowly:

* machine-level HTTP objects (`requests.models.Response`, prepared requests,
  URLs) become Lean structures holding the fields the module reads or writes;
* `requests.structures.CaseInsensitiveDict` becomes an association list with
  case-insensitive update/lookup (`ciSet` / `ciGet`);
* the plain Python `dict` used for `self.context` becomes an association list
  with exact-key update/lookup (`dictSet` / `dictGet`);
* the external collaborators (the `gssapi` library and the HTTP transport)
  are oracles: a `SecurityContext` is observable only through the outcome of
  its `step` calls, a `GssEnv` fixes the outcomes of credential acquisition
  and context creation, and `Env.send` is the transport's
  `connection.send(request)`;
* Python exceptions that escape a modelled function become the `Except PyErr`
  error channel; exceptions that the source catches locally are handled
  inside the corresponding definition, exactly where the `try/except` sits.

Mutation is made explicit: a method that mutates `self` returns the updated
`HTTPKerberosAuth` value alongside its Python return value, and updates that
happen before an exception is raised (such as the `self.context[host] = ...`
assignment in `generate_request_header`) are preserved on the error path.
-/

namespace RequestsGssapi

/-! ## Strings and header dictionaries -/

/-- ASCII lower-casing of a string, modelling Python's `str.lower()` on the
ASCII header names and scheme names this module manipulates. -/
def lowerStr (s : String) : String :=
  String.mk (s.toList.map Char.toLower)

/-- `CaseInsensitiveDict` lookup: `d.get(key)` compares keys lower-cased. -/
def ciGet (h : List (String × String)) (key : String) : Option String :=
  (h.find? (fun kv => lowerStr kv.1 = lowerStr key)).map (·.2)

/-- `CaseInsensitiveDict` assignment `d[key] = value`: any previous binding of
the same lower-cased key is replaced. -/
def ciSet (h : List (String × String)) (key value : String) :
    List (String × String) :=
  h.filter (fun kv => lowerStr kv.1 ≠ lowerStr key) ++ [(key, value)]

/-- Exact-key lookup in a plain Python `dict` modelled as an association
list: `d[k]` / `k in d`. -/
def dictGet {α : Type} (m : List (String × α)) (k : String) : Option α :=
  (m.find? (fun kv => kv.1 = k)).map (·.2)

/-- Exact-key assignment `d[k] = v` in a plain Python `dict`: overwrites the
binding of `k` if present, otherwise appends it. -/
def dictSet {α : Type} (m : List (String × α)) (k : String) (v : α) :
    List (String × α) :=
  match m with
  | [] => [(k, v)]
  | kv :: rest => if kv.1 = k then (k, v) :: rest else kv :: dictSet rest k v

/-! ## HTTP objects -/

/-- A URL in already-parsed form; the module only ever reads
`urlparse(url).hostname`, so the parsed hostname is the whole model. -/
structure URL where
  hostname : String
deriving Repr, DecidableEq

/-- The slice of a prepared `requests` request that the module touches:
its headers (a `CaseInsensitiveDict`), its URL, and `body.tell()` — modelled
as `body_pos = some p` when the body supports `tell`/`seek` and `none` when
`tell` raises `AttributeError`. -/
structure Request where
  headers : List (String × String)
  url : URL
  body_pos : Option Nat
deriving Repr, DecidableEq

/-- The slice of `requests.models.Response` that the module reads or writes.
`raw`, `request` and `connection` are opaque handles identified by numbers;
`content` is the body (`self._content`), `content_consumed` is
`self._content_consumed`.  The `history` list that `authenticate_user`
appends to belongs to the transport's response bookkeeping and is not
referenced by any property verified here. -/
structure Response where
  status_code : Nat
  headers : List (String × String)
  encoding : Option String
  raw : Nat
  reason : String
  url : URL
  request : Request
  connection : Nat
  content : String
  content_consumed : Bool
  cookies : List (String × String)
deriving Repr, DecidableEq

/-! ## Mutual-authentication modes (module constants) -/

def REQUIRED : Nat := 1
def OPTIONAL : Nat := 2
def DISABLED : Nat := 3

/-! ## SanitizedResponse -/

/-- Header map built by `SanitizedResponse.__init__`: a fresh
`CaseInsensitiveDict`, then `content-length = '0'`, then `date` and `server`
copied from the original when present. -/
def sanitizedHeaders (orig : List (String × String)) :
    List (String × String) :=
  let h := ciSet [] "content-length" "0"
  let h := match ciGet orig "date" with
    | some v => ciSet h "date" v
    | none => h
  match ciGet orig "server" with
  | some v => ciSet h "server" v
  | none => h

/-- `SanitizedResponse(response)`: copies `status_code`, `encoding`, `raw`,
`reason`, `url`, `request`, `connection`; marks the content consumed; sets
the content to the empty string; installs an empty cookie jar
(`cookiejar_from_dict({})`) and the sanitized header map. -/
def SanitizedResponse (response : Response) : Response :=
  { status_code := response.status_code
    encoding := response.encoding
    raw := response.raw
    reason := response.reason
    url := response.url
    request := response.request
    connection := response.connection
    content_consumed := true
    content := ""
    cookies := []
    headers := sanitizedHeaders response.headers }

/-! ## ChallengeParser: `_negotiate_value`

The module searches the `www-authenticate` header with the Python regex
`(?:.*,)*\s*Negotiate\s*([^,]*),?` under `re.I` and returns the first capture
group of the first match found by `re.search`.  The search semantics of this
particular pattern are implemented directly:

* `re.search` tries start positions left to right (`regexSearch` recurses on
  the tail after a failed attempt);
* at a given start, the greedy `(?:.*,)*` resumes after a comma, trying the
  rightmost comma first and the empty prefix last; a block `.*,` cannot span
  a newline (`commaTails` stops collecting at a newline);
* after the chosen resume point, greedy `\s*` eats the maximal whitespace
  run — whitespace never begins the literal, so no backtracking into it is
  possible — then the literal `Negotiate` must match case-insensitively,
  then greedy `\s*` eats whitespace and greedy `([^,]*)` captures up to the
  next comma or the end; the trailing `,?` never fails.
-/

/-- Python `\s`: space, tab, newline, carriage return, vertical tab,
form feed. -/
def pyIsSpace (c : Char) : Bool :=
  c = ' ' || c = '\t' || c = '\n' || c = '\r' || c = '\x0b' || c = '\x0c'

/-- Case-insensitive literal match: if `s` starts with `pat` up to ASCII
case, return the remainder of `s`. -/
def ciStartsWith : List Char → List Char → Option (List Char)
  | rest, [] => some rest
  | [], _ :: _ => none
  | c :: cs, p :: ps =>
    if c.toLower = p.toLower then ciStartsWith cs ps else none

/-- Attempt `\s*Negotiate\s*([^,]*),?` at the head of `t`; on success return
the captured group. -/
def tailMatch (t : List Char) : Option (List Char) :=
  match ciStartsWith (t.dropWhile pyIsSpace) "Negotiate".toList with
  | some rest => some ((rest.dropWhile pyIsSpace).takeWhile (fun c => c ≠ ','))
  | none => none

/-- Resume points for the greedy `(?:.*,)*` prefix of the pattern: the tails
of `u` situated just after a comma whose preceding prefix contains no
newline, deepest (rightmost comma) first.  The empty-prefix attempt is added
by the caller after these. -/
def commaTails : List Char → List (List Char)
  | [] => []
  | c :: cs =>
    if c = '\n' then []
    else if c = ',' then commaTails cs ++ [cs]
    else commaTails cs

/-- One anchored attempt of the whole pattern at the head of `u`. -/
def matchAttempt (u : List Char) : Option (List Char) :=
  (commaTails u ++ [u]).findSome? tailMatch

/-- `re.search` over the pattern: try each start position left to right. -/
def regexSearch : List Char → Option (List Char)
  | [] => none
  | c :: cs =>
    match matchAttempt (c :: cs) with
    | some g => some g
    | none => regexSearch cs

/-- `_negotiate_value(response)`: read the `www-authenticate` header; an
absent or empty header (falsy in Python) yields `None`; otherwise search it
with the regex and return the capture group, or `None` when there is no
match. -/
def negotiate_value (response : Response) : Option String :=
  match ciGet response.headers "www-authenticate" with
  | none => none
  | some authreq =>
    if authreq = "" then none
    else (regexSearch authreq.toList).map String.mk

/-! ## External collaborators: gssapi and the transport -/

/-- An opaque GSSAPI security context, observable only through `step`:
`step(token)` either returns an output token or raises a `GSSError` carrying
a message (`error.gen_message()`).  The input is `none` for the argumentless
preemptive `step()` and `some`/`none` of the extracted challenge otherwise,
mirroring the `Optional[str]` argument in the source. -/
structure SecurityContext where
  step : Option String → Except String String

/-- Outcomes of the external `gssapi` calls made by one
`generate_request_header` call: credential acquisition
(`gssapi.Credentials(...)`, consulted only when a principal is configured)
and security-context creation (`gssapi.SecurityContext(...)`).  An `error`
value is the `GSSError` message raised by the library. -/
structure GssEnv where
  credentials : Except String Unit
  newContext : Except String SecurityContext

/-- The transport oracle: `connection.send(request, **kwargs)` plus the
`GssEnv` used by every `generate_request_header` call in the execution. -/
structure Env where
  gss : GssEnv
  send : Request → Response

/-- Python exceptions that escape the modelled methods uncaught. -/
inductive PyErr where
  | MutualAuthenticationError (msg : String)
  | KerberosExchangeError (msg : String)
  | KeyError (key : String)
deriving Repr, DecidableEq

/-! ## HTTPKerberosAuth -/

/-- The mutable attributes of an `HTTPKerberosAuth` instance.  `context` is
the per-host map of security contexts (`self.context`), a plain `dict`. -/
structure HTTPKerberosAuth where
  context : List (String × SecurityContext)
  mutual_authentication : Nat
  delegate : Bool
  pos : Option Nat
  service : String
  force_preemptive : Bool
  principal : Option String
  hostname_override : Option String
  sanitize_mutual_error_response : Bool

namespace HTTPKerberosAuth

/-- `generate_request_header(self, response, host, is_preemptive)`.

Returns the updated instance together with either the `Negotiate` header
string or the message of the raised `KerberosExchangeError`.  The stages
mirror the source: acquire credentials when a principal is configured
(stage "acquiring credentials"), create a context and store it under `host`
— `self.context[host] = gssapi.SecurityContext(...)` assigns only after the
constructor succeeds — (stage "initiating context"), then step the stored
context (stage "stepping context"); a `GSSError` at any stage is wrapped as
`KerberosExchangeError("<stage> failed: <msg>")`, and the `context`
assignment survives a failure of the later stepping stage, exactly as the
Python mutation does.  `response` is consulted only on the non-preemptive
path, where every caller passes one. -/
def generate_request_header (a : HTTPKerberosAuth) (response : Option Response)
    (host : String) (is_preemptive : Bool) (env : GssEnv) :
    HTTPKerberosAuth × Except String String :=
  match (if a.principal.isSome then env.credentials else Except.ok ()) with
  | Except.error msg => (a, Except.error ("acquiring credentials failed: " ++ msg))
  | Except.ok _ =>
    match env.newContext with
    | Except.error msg => (a, Except.error ("initiating context failed: " ++ msg))
    | Except.ok ctx =>
      let a1 := { a with context := dictSet a.context host ctx }
      let tokenIn : Option String :=
        if is_preemptive then none
        else match response with
          | some r => negotiate_value r
          | none => none
      match ctx.step tokenIn with
      | Except.error msg =>
        (a1, Except.error ("stepping context failed: " ++ msg))
      | Except.ok gss_response =>
        (a1, Except.ok ("Negotiate " ++ gss_response))

/-- `authenticate_user(self, response)`: generate the header for the
response's host; a `KerberosExchangeError` is caught here and the existing
response returned; on success the `Authorization` header is set on the
request (a shared mutable `CaseInsensitiveDict`), the old response's body is
consumed and its connection released (transport effects with no modelled
state), and the request is resent through `connection.send`. -/
def authenticate_user (a : HTTPKerberosAuth) (env : Env) (response : Response) :
    HTTPKerberosAuth × Response :=
  let host := response.url.hostname
  match a.generate_request_header (some response) host false env.gss with
  | (a1, Except.error _) => (a1, response)
  | (a1, Except.ok auth_header) =>
    let req := { response.request with
      headers := ciSet response.request.headers "Authorization" auth_header }
    (a1, env.send req)

/-- `handle_401(self, response)`: when the response carries a Negotiate
challenge (`_negotiate_value(response) is not None`), attempt user
authentication; otherwise return the response unmodified. -/
def handle_401 (a : HTTPKerberosAuth) (env : Env) (response : Response) :
    HTTPKerberosAuth × Response :=
  if (negotiate_value response).isSome then a.authenticate_user env response
  else (a, response)

/-- `authenticate_server(self, response)`: step the stored context for the
response's host with the extracted challenge.  `self.context[host]` raises
an uncaught `KeyError` when no context was stored for that host; a
`GSSError` from the step is caught and reported as `False`; otherwise
`True`. -/
def authenticate_server (a : HTTPKerberosAuth) (response : Response) :
    Except PyErr Bool :=
  let host := response.url.hostname
  match dictGet a.context host with
  | none => Except.error (PyErr.KeyError host)
  | some ctx =>
    match ctx.step (negotiate_value response) with
    | Except.error _ => Except.ok false
    | Except.ok _ => Except.ok true

/-- `handle_other(self, response)`: the mutual-authentication policy applied
to every non-401 response.  Returns the response (possibly sanitized) or
raises `MutualAuthenticationError`; an uncaught `KeyError` from
`authenticate_server` propagates. -/
def handle_other (a : HTTPKerberosAuth) (response : Response) :
    Except PyErr Response :=
  if ¬ (a.mutual_authentication = REQUIRED ∨ a.mutual_authentication = OPTIONAL)
  then Except.ok response
  else if (negotiate_value response).isSome then
    match a.authenticate_server response with
    | Except.error e => Except.error e
    | Except.ok false =>
      Except.error (PyErr.MutualAuthenticationError
        ("Unable to authenticate <Response [" ++
          toString response.status_code ++ "]>"))
    | Except.ok true => Except.ok response
  else if 400 ≤ response.status_code ∨ a.mutual_authentication = OPTIONAL then
    if a.mutual_authentication = REQUIRED ∧
        a.sanitize_mutual_error_response = true then
      Except.ok (SanitizedResponse response)
    else Except.ok response
  else
    Except.error (PyErr.MutualAuthenticationError
      ("Unable to authenticate <Response [" ++
        toString response.status_code ++ "]>"))

/-- `handle_response(self, response, num_401s=...)`: rewind the request body
to `self.pos` when recorded (a stream effect with no modelled state), retry
a 401 through `handle_401` while fewer than two 401s have been seen,
return a persistent 401 as-is, and hand every other status to
`handle_other`. -/
def handle_response (a : HTTPKerberosAuth) (env : Env) (response : Response)
    (num_401s : Nat) : HTTPKerberosAuth × Except PyErr Response :=
  if h : response.status_code = 401 ∧ num_401s < 2 then
    let p := a.handle_401 env response
    handle_response p.1 env p.2 (num_401s + 1)
  else if response.status_code = 401 then
    (a, Except.ok response)
  else
    (a, a.handle_other response)
termination_by 2 - num_401s
decreasing_by omega

/-- `__call__(self, request)`: when `force_preemptive`, generate the header
for the request's host with no response — a `KerberosExchangeError` raised
by `generate_request_header` is NOT caught here and propagates to the
caller — and attach it; then register the response hook (external) and
record the body position, `None` when the body has no `tell`. -/
def call (a : HTTPKerberosAuth) (env : Env) (request : Request) :
    HTTPKerberosAuth × Except PyErr Request :=
  if a.force_preemptive = true then
    let host := request.url.hostname
    match a.generate_request_header none host true env.gss with
    | (a1, Except.error msg) =>
      (a1, Except.error (PyErr.KerberosExchangeError msg))
    | (a1, Except.ok auth_header) =>
      let req := { request with
        headers := ciSet request.headers "Authorization" auth_header }
      ({ a1 with pos := request.body_pos }, Except.ok req)
  else
    ({ a with pos := request.body_pos }, Except.ok request)

end HTTPKerberosAuth

/-! ## Concrete sample objects used by the witnesses -/

/-- A sample URL. -/
def urlEx : URL := ⟨"example.org"⟩

/-- A sample prepared request with no rewindable body. -/
def reqEx : Request := ⟨[], urlEx, none⟩

/-- A 200 response carrying a Negotiate challenge. -/
def respChal : Response :=
  ⟨200, [("WWW-Authenticate", "Negotiate dG9r")], none, 0, "OK", urlEx, reqEx,
    0, "body", false, []⟩

/-- A 200 response with no challenge header at all. -/
def respPlain : Response :=
  ⟨200, [("Server", "nginx")], none, 0, "OK", urlEx, reqEx, 0, "body", false, []⟩

/-- A 500 response with no challenge header. -/
def respErr : Response :=
  ⟨500, [("Date", "today")], none, 0, "ERR", urlEx, reqEx, 0, "oops", false, []⟩

/-- A security context whose steps always succeed. -/
def ctxOk : SecurityContext := ⟨fun _ => Except.ok "out"⟩

/-- A security context whose steps always fail. -/
def ctxFail : SecurityContext := ⟨fun _ => Except.error "checksum mismatch"⟩

/-- A handler in REQUIRED mode holding a context for `example.org`. -/
def authEx : HTTPKerberosAuth :=
  ⟨[("example.org", ctxOk)], REQUIRED, false, none, "HTTP", false, none, none, true⟩

/-! ## Helper lemmas -/

/-- `authenticate_server` with a stored context reduces to stepping it. -/
theorem authenticate_server_step (a : HTTPKerberosAuth) (r : Response)
    (ctx : SecurityContext)
    (hctx : dictGet a.context r.url.hostname = some ctx) :
    a.authenticate_server r =
      match ctx.step (negotiate_value r) with
      | Except.error _ => Except.ok false
      | Except.ok _ => Except.ok true := by
  unfold HTTPKerberosAuth.authenticate_server
  simp only [hctx]

/-! ## C1: handle_other on a challenge verifies the server -/

/-- C1: for every response whose header carries a Negotiate challenge, under
mode REQUIRED or OPTIONAL and with a context stored for the response's host,
`handle_other` steps that context: it raises `MutualAuthenticationError` iff
the step fails, and returns the response unchanged when the step succeeds,
regardless of the status code. -/
theorem handle_other_challenge_steps_context
    (a : HTTPKerberosAuth) (r : Response) (ctx : SecurityContext)
    (hmode : a.mutual_authentication = REQUIRED ∨
      a.mutual_authentication = OPTIONAL)
    (hctx : dictGet a.context r.url.hostname = some ctx)
    (hchal : (negotiate_value r).isSome = true) :
    ((∃ m, a.handle_other r =
        Except.error (PyErr.MutualAuthenticationError m)) ↔
      (∃ e, ctx.step (negotiate_value r) = Except.error e)) ∧
    (∀ t, ctx.step (negotiate_value r) = Except.ok t →
      a.handle_other r = Except.ok r) := by
  have hmode' : ¬ ¬ (a.mutual_authentication = REQUIRED ∨
      a.mutual_authentication = OPTIONAL) := not_not_intro hmode
  unfold HTTPKerberosAuth.handle_other
  rw [if_neg hmode', if_pos hchal, authenticate_server_step a r ctx hctx]
  cases hstep : ctx.step (negotiate_value r) with
  | error e =>
    refine ⟨⟨fun _ => ⟨e, rfl⟩, fun _ => ⟨_, rfl⟩⟩, ?_⟩
    intro t ht
    exact absurd ht (by simp)
  | ok t =>
    refine ⟨⟨?_, ?_⟩, fun t2 _ => rfl⟩
    · rintro ⟨m, hm⟩
      exact absurd hm (by simp)
    · rintro ⟨e, he⟩
      exact absurd he (by simp)

/-- Witness for C1 at a concrete handler, context and response. -/
theorem handle_other_challenge_steps_context_witness :
    (authEx.mutual_authentication = REQUIRED ∨
      authEx.mutual_authentication = OPTIONAL) ∧
    dictGet authEx.context respChal.url.hostname = some ctxOk ∧
    (negotiate_value respChal).isSome = true ∧
    (((∃ m, authEx.handle_other respChal =
        Except.error (PyErr.MutualAuthenticationError m)) ↔
      (∃ e, ctxOk.step (negotiate_value respChal) = Except.error e)) ∧
    (∀ t, ctxOk.step (negotiate_value respChal) = Except.ok t →
      authEx.handle_other respChal = Except.ok respChal)) :=
  ⟨Or.inl rfl, rfl, by decide,
    handle_other_challenge_steps_context authEx respChal ctxOk (Or.inl rfl)
      rfl (by decide)⟩

/-! ## C2: REQUIRED mode, no challenge, non-error status -/

/-- C2: in REQUIRED mode, every response with status below 400 and no
Negotiate challenge makes `handle_other` raise
`MutualAuthenticationError`. -/
theorem handle_other_required_no_challenge_raises
    (a : HTTPKerberosAuth) (r : Response)
    (hmode : a.mutual_authentication = REQUIRED)
    (hstatus : r.status_code < 400)
    (hchal : negotiate_value r = none) :
    ∃ m, a.handle_other r =
      Except.error (PyErr.MutualAuthenticationError m) := by
  refine ⟨"Unable to authenticate <Response [" ++
    toString r.status_code ++ "]>", ?_⟩
  unfold HTTPKerberosAuth.handle_other
  rw [if_neg (not_not_intro (Or.inl hmode)), hchal,
    if_neg (show ¬ ((none : Option String).isSome = true) by simp),
    if_neg (show ¬ (400 ≤ r.status_code ∨
      a.mutual_authentication = OPTIONAL) by
        rintro (h4 | hopt)
        · omega
        · rw [hmode] at hopt
          exact absurd hopt (by decide))]

/-- Witness for C2: a REQUIRED-mode handler and a 200 response with no
challenge. -/
theorem handle_other_required_no_challenge_raises_witness :
    authEx.mutual_authentication = REQUIRED ∧
    respPlain.status_code < 400 ∧
    negotiate_value respPlain = none ∧
    ∃ m, authEx.handle_other respPlain =
      Except.error (PyErr.MutualAuthenticationError m) :=
  ⟨rfl, by decide, by decide,
    handle_other_required_no_challenge_raises authEx respPlain rfl (by decide)
      (by decide)⟩

/-! ## C3: no challenge, error status or OPTIONAL mode -/

/-- C3: with no Negotiate challenge, REQUIRED mode on an error status
returns the sanitized response exactly when sanitization is enabled and the
original response otherwise, and OPTIONAL mode returns the original
response unchanged for every status. -/
theorem handle_other_no_challenge_degrades
    (a : HTTPKerberosAuth) (r : Response)
    (hchal : negotiate_value r = none) :
    (a.mutual_authentication = REQUIRED → 400 ≤ r.status_code →
      a.handle_other r = Except.ok
        (if a.sanitize_mutual_error_response = true
          then SanitizedResponse r else r)) ∧
    (a.mutual_authentication = OPTIONAL →
      a.handle_other r = Except.ok r) := by
  constructor
  · intro hmode hstatus
    unfold HTTPKerberosAuth.handle_other
    rw [if_neg (not_not_intro (Or.inl hmode)), hchal]
    rw [if_neg (by simp), if_pos (Or.inl hstatus)]
    by_cases hs : a.sanitize_mutual_error_response = true
    · rw [if_pos ⟨hmode, hs⟩, if_pos hs]
    · rw [if_neg (fun hc => hs hc.2), if_neg hs]
  · intro hmode
    unfold HTTPKerberosAuth.handle_other
    rw [if_neg (not_not_intro (Or.inr hmode)), hchal]
    rw [if_neg (by simp), if_pos (Or.inr hmode)]
    rw [if_neg]
    rintro ⟨hreq, -⟩
    rw [hmode] at hreq
    exact absurd hreq (by decide)

/-- Witness for C3: a REQUIRED-mode sanitizing handler on a 500 response,
and an OPTIONAL-mode handler on the same response. -/
theorem handle_other_no_challenge_degrades_witness :
    negotiate_value respErr = none ∧
    ((authEx.mutual_authentication = REQUIRED → 400 ≤ respErr.status_code →
      authEx.handle_other respErr = Except.ok
        (if authEx.sanitize_mutual_error_response = true
          then SanitizedResponse respErr else respErr)) ∧
    (authEx.mutual_authentication = OPTIONAL →
      authEx.handle_other respErr = Except.ok respErr)) :=
  ⟨by decide, handle_other_no_challenge_degrades authEx respErr (by decide)⟩

/-! ## C8: any mode other than REQUIRED and OPTIONAL -/

/-- C8: for every `mutual_authentication` value that is neither REQUIRED nor
OPTIONAL — DISABLED or any other number the constructor accepted —
`handle_other` returns the response unchanged for every status code and
challenge presence, neither raising nor sanitizing. -/
theorem handle_other_mode_disabledlike
    (a : HTTPKerberosAuth) (r : Response)
    (h1 : a.mutual_authentication ≠ REQUIRED)
    (h2 : a.mutual_authentication ≠ OPTIONAL) :
    a.handle_other r = Except.ok r := by
  unfold HTTPKerberosAuth.handle_other
  rw [if_pos]
  rintro (h | h)
  · exact h1 h
  · exact h2 h

/-- Witness for C8: a handler whose mode is 7, an undocumented value. -/
theorem handle_other_mode_disabledlike_witness :
    ({ authEx with mutual_authentication := 7 }).mutual_authentication
      ≠ REQUIRED ∧
    ({ authEx with mutual_authentication := 7 }).mutual_authentication
      ≠ OPTIONAL ∧
    ({ authEx with mutual_authentication := 7 }).handle_other respChal
      = Except.ok respChal :=
  ⟨by decide, by decide,
    handle_other_mode_disabledlike { authEx with mutual_authentication := 7 }
      respChal (by decide) (by decide)⟩

/-! ## Case-insensitive dictionary lemmas -/

/-- Filtering out one lower-cased key does not change lookups of a different
lower-cased key. -/
theorem find?_filter_lower_ne (h : List (String × String)) (k k2 : String)
    (hk : lowerStr k2 ≠ lowerStr k) :
    List.find? (fun kv => lowerStr kv.1 = lowerStr k2)
      (h.filter fun kv => lowerStr kv.1 ≠ lowerStr k) =
    List.find? (fun kv => lowerStr kv.1 = lowerStr k2) h := by
  induction h with
  | nil => rfl
  | cons kv rest ih =>
    by_cases hp : lowerStr kv.1 = lowerStr k
    · have hq : ¬ lowerStr kv.1 = lowerStr k2 := by
        rw [hp]; exact fun hc => hk hc.symm
      rw [List.filter_cons_of_neg (by simpa using not_not_intro hp),
        List.find?_cons_of_neg _ (by simpa using hq), ih]
    · by_cases hq : lowerStr kv.1 = lowerStr k2
      · rw [List.filter_cons_of_pos (by simpa using hp),
          List.find?_cons_of_pos _ (by simpa using hq),
          List.find?_cons_of_pos _ (by simpa using hq)]
      · rw [List.filter_cons_of_pos (by simpa using hp),
          List.find?_cons_of_neg _ (by simpa using hq),
          List.find?_cons_of_neg _ (by simpa using hq), ih]

/-- `ciSet` then `ciGet` of the same (lower-cased) key yields the value. -/
theorem ciGet_ciSet_self (h : List (String × String)) (k k2 v : String)
    (hk : lowerStr k2 = lowerStr k) : ciGet (ciSet h k v) k2 = some v := by
  unfold ciGet ciSet
  rw [List.find?_append]
  have h1 : List.find? (fun kv => lowerStr kv.1 = lowerStr k2)
      (h.filter fun kv => lowerStr kv.1 ≠ lowerStr k) = none := by
    rw [List.find?_eq_none]
    intro x hx
    rcases List.mem_filter.mp hx with ⟨-, hpx⟩
    simp only [decide_eq_true_eq] at hpx ⊢
    rw [hk]
    exact hpx
  rw [h1, Option.none_or, List.find?_cons_of_pos _ (by simpa using hk.symm)]
  rfl

/-- `ciSet` leaves lookups of other (lower-cased) keys unchanged. -/
theorem ciGet_ciSet_ne (h : List (String × String)) (k k2 v : String)
    (hk : lowerStr k2 ≠ lowerStr k) : ciGet (ciSet h k v) k2 = ciGet h k2 := by
  unfold ciGet ciSet
  rw [List.find?_append, find?_filter_lower_ne h k k2 hk]
  have hne : ¬ lowerStr k = lowerStr k2 := fun hc => hk hc.symm
  have h2 : List.find? (fun kv => lowerStr kv.1 = lowerStr k2) [(k, v)]
      = none := by
    rw [List.find?_cons_of_neg _ (by simpa using hne)]
    rfl
  rw [h2, Option.or_none]

/-- `sanitizedHeaders` when the original has neither `date` nor `server`. -/
theorem sanitizedHeaders_nn (orig : List (String × String))
    (hd : ciGet orig "date" = none) (hs : ciGet orig "server" = none) :
    sanitizedHeaders orig = ciSet [] "content-length" "0" := by
  unfold sanitizedHeaders
  rw [hd, hs]

/-- `sanitizedHeaders` when the original has `server` but not `date`. -/
theorem sanitizedHeaders_ns (orig : List (String × String)) (sv : String)
    (hd : ciGet orig "date" = none) (hs : ciGet orig "server" = some sv) :
    sanitizedHeaders orig =
      ciSet (ciSet [] "content-length" "0") "server" sv := by
  unfold sanitizedHeaders
  rw [hd, hs]

/-- `sanitizedHeaders` when the original has `date` but not `server`. -/
theorem sanitizedHeaders_sn (orig : List (String × String)) (dv : String)
    (hd : ciGet orig "date" = some dv) (hs : ciGet orig "server" = none) :
    sanitizedHeaders orig =
      ciSet (ciSet [] "content-length" "0") "date" dv := by
  unfold sanitizedHeaders
  rw [hd, hs]

/-- `sanitizedHeaders` when the original has both `date` and `server`. -/
theorem sanitizedHeaders_ss (orig : List (String × String)) (dv sv : String)
    (hd : ciGet orig "date" = some dv) (hs : ciGet orig "server" = some sv) :
    sanitizedHeaders orig =
      ciSet (ciSet (ciSet [] "content-length" "0") "date" dv) "server" sv := by
  unfold sanitizedHeaders
  rw [hd, hs]

/-- The sanitized header map binds `content-length` to `"0"`. -/
theorem sanitizedHeaders_content_length (orig : List (String × String)) :
    ciGet (sanitizedHeaders orig) "content-length" = some "0" := by
  rcases hd : ciGet orig "date" with _ | dv <;>
    rcases hs : ciGet orig "server" with _ | sv
  · rw [sanitizedHeaders_nn orig hd hs]
    exact ciGet_ciSet_self [] "content-length" "content-length" "0" rfl
  · rw [sanitizedHeaders_ns orig sv hd hs, ciGet_ciSet_ne _ _ _ _ (by decide)]
    exact ciGet_ciSet_self [] "content-length" "content-length" "0" rfl
  · rw [sanitizedHeaders_sn orig dv hd hs, ciGet_ciSet_ne _ _ _ _ (by decide)]
    exact ciGet_ciSet_self [] "content-length" "content-length" "0" rfl
  · rw [sanitizedHeaders_ss orig dv sv hd hs,
      ciGet_ciSet_ne _ _ _ _ (by decide), ciGet_ciSet_ne _ _ _ _ (by decide)]
    exact ciGet_ciSet_self [] "content-length" "content-length" "0" rfl

/-- The sanitized header map agrees with the original on `date`. -/
theorem sanitizedHeaders_date (orig : List (String × String)) :
    ciGet (sanitizedHeaders orig) "date" = ciGet orig "date" := by
  rcases hd : ciGet orig "date" with _ | dv <;>
    rcases hs : ciGet orig "server" with _ | sv
  · rw [sanitizedHeaders_nn orig hd hs, ciGet_ciSet_ne _ _ _ _ (by decide)]
    rfl
  · rw [sanitizedHeaders_ns orig sv hd hs, ciGet_ciSet_ne _ _ _ _ (by decide),
      ciGet_ciSet_ne _ _ _ _ (by decide)]
    rfl
  · rw [sanitizedHeaders_sn orig dv hd hs]
    exact ciGet_ciSet_self _ "date" "date" dv rfl
  · rw [sanitizedHeaders_ss orig dv sv hd hs,
      ciGet_ciSet_ne _ _ _ _ (by decide)]
    exact ciGet_ciSet_self _ "date" "date" dv rfl

/-- The sanitized header map agrees with the original on `server`. -/
theorem sanitizedHeaders_server (orig : List (String × String)) :
    ciGet (sanitizedHeaders orig) "server" = ciGet orig "server" := by
  rcases hd : ciGet orig "date" with _ | dv <;>
    rcases hs : ciGet orig "server" with _ | sv
  · rw [sanitizedHeaders_nn orig hd hs, ciGet_ciSet_ne _ _ _ _ (by decide)]
    rfl
  · rw [sanitizedHeaders_ns orig sv hd hs]
    exact ciGet_ciSet_self _ "server" "server" sv rfl
  · rw [sanitizedHeaders_sn orig dv hd hs, ciGet_ciSet_ne _ _ _ _ (by decide),
      ciGet_ciSet_ne _ _ _ _ (by decide)]
    rfl
  · rw [sanitizedHeaders_ss orig dv sv hd hs]
    exact ciGet_ciSet_self _ "server" "server" sv rfl

/-- No key other than `content-length`, `date`, `server` is bound in the
sanitized header map. -/
theorem sanitizedHeaders_other (orig : List (String × String)) (k : String)
    (h1 : lowerStr k ≠ "content-length") (h2 : lowerStr k ≠ "date")
    (h3 : lowerStr k ≠ "server") :
    ciGet (sanitizedHeaders orig) k = none := by
  have h1' : lowerStr k ≠ lowerStr "content-length" := fun hc =>
    h1 (hc.trans (by decide))
  have h2' : lowerStr k ≠ lowerStr "date" := fun hc => h2 (hc.trans (by decide))
  have h3' : lowerStr k ≠ lowerStr "server" := fun hc =>
    h3 (hc.trans (by decide))
  rcases hd : ciGet orig "date" with _ | dv <;>
    rcases hs : ciGet orig "server" with _ | sv
  · rw [sanitizedHeaders_nn orig hd hs, ciGet_ciSet_ne _ _ _ _ h1']
    rfl
  · rw [sanitizedHeaders_ns orig sv hd hs, ciGet_ciSet_ne _ _ _ _ h3',
      ciGet_ciSet_ne _ _ _ _ h1']
    rfl
  · rw [sanitizedHeaders_sn orig dv hd hs, ciGet_ciSet_ne _ _ _ _ h2',
      ciGet_ciSet_ne _ _ _ _ h1']
    rfl
  · rw [sanitizedHeaders_ss orig dv sv hd hs, ciGet_ciSet_ne _ _ _ _ h3',
      ciGet_ciSet_ne _ _ _ _ h2', ciGet_ciSet_ne _ _ _ _ h1']
    rfl

/-! ## C6: SanitizedResponse observables -/

/-- C6: for every original response, `SanitizedResponse` has an empty body
marked already consumed, an empty cookie jar, and a header map containing
exactly `content-length: 0` plus `date` and `server` copied iff present in
the original — any other key is unbound — while `status_code`, `encoding`,
`raw`, `reason`, `url`, `request` and `connection` are copied from the
original. -/
theorem SanitizedResponse_observables (r : Response) :
    (SanitizedResponse r).content = "" ∧
    (SanitizedResponse r).content_consumed = true ∧
    (SanitizedResponse r).cookies = [] ∧
    ciGet (SanitizedResponse r).headers "content-length" = some "0" ∧
    ciGet (SanitizedResponse r).headers "date" = ciGet r.headers "date" ∧
    ciGet (SanitizedResponse r).headers "server" = ciGet r.headers "server" ∧
    (∀ k, lowerStr k ≠ "content-length" → lowerStr k ≠ "date" →
      lowerStr k ≠ "server" → ciGet (SanitizedResponse r).headers k = none) ∧
    (SanitizedResponse r).status_code = r.status_code ∧
    (SanitizedResponse r).encoding = r.encoding ∧
    (SanitizedResponse r).raw = r.raw ∧
    (SanitizedResponse r).reason = r.reason ∧
    (SanitizedResponse r).url = r.url ∧
    (SanitizedResponse r).request = r.request ∧
    (SanitizedResponse r).connection = r.connection :=
  ⟨rfl, rfl, rfl,
    sanitizedHeaders_content_length r.headers,
    sanitizedHeaders_date r.headers,
    sanitizedHeaders_server r.headers,
    fun k h1 h2 h3 => sanitizedHeaders_other r.headers k h1 h2 h3,
    rfl, rfl, rfl, rfl, rfl, rfl, rfl⟩

/-- Witness for C6 at a concrete 500 response carrying a `Date` header and
an unrelated header that must not survive sanitization. -/
theorem SanitizedResponse_observables_witness :
    ciGet (SanitizedResponse respErr).headers "content-length" = some "0" ∧
    ciGet (SanitizedResponse respErr).headers "date" = some "today" ∧
    lowerStr "X-Secret" ≠ "content-length" ∧
    ciGet (SanitizedResponse respErr).headers "X-Secret" = none ∧
    (SanitizedResponse respErr).content = "" :=
  ⟨(SanitizedResponse_observables respErr).2.2.2.1,
    by rw [(SanitizedResponse_observables respErr).2.2.2.2.1]; decide,
    by decide,
    (SanitizedResponse_observables respErr).2.2.2.2.2.2.1 "X-Secret"
      (by decide) (by decide) (by decide),
    (SanitizedResponse_observables respErr).1⟩

/-! ## C9: a bare `Negotiate` scheme is a present challenge -/

/-- A 200 response whose challenge header is the bare scheme name. -/
def respBare : Response :=
  ⟨200, [("WWW-Authenticate", "Negotiate")], none, 0, "OK", urlEx, reqEx, 0,
    "body", false, []⟩

/-- A transport environment whose sends yield the plain 200 response. -/
def envEx : Env := ⟨⟨Except.ok (), Except.ok ctxOk⟩, fun _ => respPlain⟩

/-- C9: when the `WWW-Authenticate` header is the bare scheme name
`Negotiate`, `_negotiate_value` returns the empty string, not `None`; hence
`handle_401` proceeds to user authentication, `authenticate_server` steps
the stored context with the empty token, and `handle_other` under REQUIRED
or OPTIONAL attempts server verification. -/
theorem negotiate_value_bare_scheme (a : HTTPKerberosAuth) (env : Env)
    (r : Response)
    (hh : ciGet r.headers "www-authenticate" = some "Negotiate") :
    negotiate_value r = some "" ∧
    a.handle_401 env r = a.authenticate_user env r ∧
    (∀ ctx, dictGet a.context r.url.hostname = some ctx →
      a.authenticate_server r =
        match ctx.step (some "") with
        | Except.error _ => Except.ok false
        | Except.ok _ => Except.ok true) ∧
    ((a.mutual_authentication = REQUIRED ∨
        a.mutual_authentication = OPTIONAL) →
      a.handle_other r =
        match a.authenticate_server r with
        | Except.error e => Except.error e
        | Except.ok false =>
          Except.error (PyErr.MutualAuthenticationError
            ("Unable to authenticate <Response [" ++
              toString r.status_code ++ "]>"))
        | Except.ok true => Except.ok r) := by
  have hnv : negotiate_value r = some "" := by
    unfold negotiate_value
    rw [hh]
    decide
  refine ⟨hnv, ?_, ?_, ?_⟩
  · unfold HTTPKerberosAuth.handle_401
    rw [if_pos (by rw [hnv]; rfl)]
  · intro ctx hctx
    rw [authenticate_server_step a r ctx hctx, hnv]
  · intro hmode
    unfold HTTPKerberosAuth.handle_other
    rw [if_neg (not_not_intro hmode), if_pos (by rw [hnv]; rfl)]

/-- Witness for C9: a handler with a stored context and the bare-scheme
response. -/
theorem negotiate_value_bare_scheme_witness :
    ciGet respBare.headers "www-authenticate" = some "Negotiate" ∧
    (negotiate_value respBare = some "" ∧
    authEx.handle_401 envEx respBare = authEx.authenticate_user envEx respBare ∧
    (∀ ctx, dictGet authEx.context respBare.url.hostname = some ctx →
      authEx.authenticate_server respBare =
        match ctx.step (some "") with
        | Except.error _ => Except.ok false
        | Except.ok _ => Except.ok true) ∧
    ((authEx.mutual_authentication = REQUIRED ∨
        authEx.mutual_authentication = OPTIONAL) →
      authEx.handle_other respBare =
        match authEx.authenticate_server respBare with
        | Except.error e => Except.error e
        | Except.ok false =>
          Except.error (PyErr.MutualAuthenticationError
            ("Unable to authenticate <Response [" ++
              toString respBare.status_code ++ "]>"))
        | Except.ok true => Except.ok respBare)) :=
  ⟨by decide, negotiate_value_bare_scheme authEx envEx respBare (by decide)⟩

/-! ## C10: authenticate_server needs a stored context -/

/-- C10: `authenticate_server` returns a boolean only when a context is
stored for the response's host; with no stored context the lookup raises an
uncaught `KeyError` instead of returning `False`. -/
theorem authenticate_server_requires_stored_context
    (a : HTTPKerberosAuth) (r : Response) :
    (dictGet a.context r.url.hostname = none →
      a.authenticate_server r =
        Except.error (PyErr.KeyError r.url.hostname)) ∧
    (∀ ctx, dictGet a.context r.url.hostname = some ctx →
      ∃ b, a.authenticate_server r = Except.ok b) := by
  constructor
  · intro hnone
    unfold HTTPKerberosAuth.authenticate_server
    simp only [hnone]
  · intro ctx hctx
    rw [authenticate_server_step a r ctx hctx]
    cases ctx.step (negotiate_value r) with
    | error e => exact ⟨false, rfl⟩
    | ok t => exact ⟨true, rfl⟩

/-- Witness for C10: a handler with an empty context map raises `KeyError`;
the handler holding a context for the host returns a boolean. -/
theorem authenticate_server_requires_stored_context_witness :
    dictGet ({ authEx with context := [] } :
      HTTPKerberosAuth).context respChal.url.hostname = none ∧
    ({ authEx with context := [] } :
      HTTPKerberosAuth).authenticate_server respChal =
        Except.error (PyErr.KeyError respChal.url.hostname) ∧
    dictGet authEx.context respChal.url.hostname = some ctxOk ∧
    ∃ b, authEx.authenticate_server respChal = Except.ok b :=
  ⟨rfl,
    (authenticate_server_requires_stored_context
      { authEx with context := [] } respChal).1 rfl,
    rfl,
    (authenticate_server_requires_stored_context authEx respChal).2
      ctxOk rfl⟩

/-! ## Unfolding equations for the stateful methods -/

/-- `authenticate_user` with its internal `host` binding inlined. -/
theorem authenticate_user_eq (a : HTTPKerberosAuth) (env : Env)
    (r : Response) :
    a.authenticate_user env r =
      match a.generate_request_header (some r) r.url.hostname false env.gss with
      | (a1, Except.error _) => (a1, r)
      | (a1, Except.ok auth_header) =>
        (a1, env.send { r.request with
          headers := ciSet r.request.headers "Authorization" auth_header }) :=
  rfl

/-- `call` with its internal bindings inlined. -/
theorem call_eq (a : HTTPKerberosAuth) (env : Env) (request : Request) :
    a.call env request =
      if a.force_preemptive = true then
        match a.generate_request_header none request.url.hostname true
            env.gss with
        | (a1, Except.error msg) =>
          (a1, Except.error (PyErr.KerberosExchangeError msg))
        | (a1, Except.ok auth_header) =>
          ({ a1 with pos := request.body_pos },
            Except.ok { request with
              headers := ciSet request.headers "Authorization" auth_header })
      else ({ a with pos := request.body_pos }, Except.ok request) :=
  rfl

/-- One unfolding of the `handle_response` recursion. -/
theorem handle_response_eq (a : HTTPKerberosAuth) (env : Env) (r : Response)
    (n : Nat) :
    a.handle_response env r n =
      if r.status_code = 401 ∧ n < 2 then
        HTTPKerberosAuth.handle_response (a.handle_401 env r).1 env
          (a.handle_401 env r).2 (n + 1)
      else if r.status_code = 401 then (a, Except.ok r)
      else (a, a.handle_other r) := by
  rw [HTTPKerberosAuth.handle_response]
  split <;> rfl

/-! ## C4: three consecutive 401s end after exactly two retries -/

/-- Under a transport that always answers 401, `handle_401` leaves the
status at 401: either it returns the original 401 unchanged (no challenge,
or header generation failed) or it returns the freshly sent 401. -/
theorem handle_401_keeps_401 (a : HTTPKerberosAuth) (env : Env) (r : Response)
    (hsend : ∀ q, (env.send q).status_code = 401)
    (hr : r.status_code = 401) :
    ((a.handle_401 env r).2).status_code = 401 := by
  unfold HTTPKerberosAuth.handle_401
  by_cases hch : (negotiate_value r).isSome = true
  · rw [if_pos hch, authenticate_user_eq]
    rcases hgen : a.generate_request_header (some r) r.url.hostname false
      env.gss with ⟨a1, res⟩
    cases res with
    | error m => exact hr
    | ok hd => exact hsend _
  · rw [if_neg hch]
    exact hr

/-- C4: when every (re)sent attempt yields a 401 again, `handle_response`
starting at `num_401s = 0` performs exactly two `handle_401` retries — the
recursion is bounded at three total attempts — and returns the last 401
response without raising. -/
theorem handle_response_all_401_two_retries
    (a : HTTPKerberosAuth) (env : Env) (r : Response)
    (hsend : ∀ q, (env.send q).status_code = 401)
    (hr : r.status_code = 401) :
    a.handle_response env r 0 =
      (((a.handle_401 env r).1.handle_401 env (a.handle_401 env r).2).1,
        Except.ok
          (((a.handle_401 env r).1.handle_401 env
            (a.handle_401 env r).2).2)) ∧
    (((a.handle_401 env r).1.handle_401 env
        (a.handle_401 env r).2).2).status_code = 401 := by
  have h1 : ((a.handle_401 env r).2).status_code = 401 :=
    handle_401_keeps_401 a env r hsend hr
  have h2 : (((a.handle_401 env r).1.handle_401 env
      (a.handle_401 env r).2).2).status_code = 401 :=
    handle_401_keeps_401 (a.handle_401 env r).1 env (a.handle_401 env r).2
      hsend h1
  refine ⟨?_, h2⟩
  rw [handle_response_eq, if_pos ⟨hr, by omega⟩]
  rw [handle_response_eq, if_pos ⟨h1, by omega⟩]
  rw [handle_response_eq,
    if_neg (fun hc => absurd hc.2 (by omega)), if_pos h2]

/-- A 401 response carrying a Negotiate challenge. -/
def resp401 : Response :=
  ⟨401, [("WWW-Authenticate", "Negotiate dG9r")], none, 0, "Unauthorized",
    urlEx, reqEx, 0, "", false, []⟩

/-- A transport environment whose every send yields the 401 response. -/
def env401 : Env := ⟨⟨Except.ok (), Except.ok ctxOk⟩, fun _ => resp401⟩

/-- Witness for C4 under the always-401 transport. -/
theorem handle_response_all_401_two_retries_witness :
    (∀ q, (env401.send q).status_code = 401) ∧
    resp401.status_code = 401 ∧
    (authEx.handle_response env401 resp401 0 =
      (((authEx.handle_401 env401 resp401).1.handle_401 env401
          (authEx.handle_401 env401 resp401).2).1,
        Except.ok
          (((authEx.handle_401 env401 resp401).1.handle_401 env401
            (authEx.handle_401 env401 resp401).2).2)) ∧
    (((authEx.handle_401 env401 resp401).1.handle_401 env401
        (authEx.handle_401 env401 resp401).2).2).status_code = 401) :=
  ⟨fun _ => rfl, rfl,
    handle_response_all_401_two_retries authEx env401 resp401
      (fun _ => rfl) rfl⟩

/-! ## C5: disposition of KerberosExchangeError -/

/-- A handler configured for preemptive authentication. -/
def authPre : HTTPKerberosAuth := { authEx with force_preemptive := true }

/-- An environment whose context initiation fails with a GSS error. -/
def envFail : Env :=
  ⟨⟨Except.ok (), Except.error "no credentials cache"⟩, fun _ => respPlain⟩

/-- C5 counterexample: with `force_preemptive` set and context initiation
failing, the `KerberosExchangeError` raised inside `generate_request_header`
escapes `__call__` to the caller — it is not caught on the preemptive path,
contradicting the claim that it never propagates. -/
theorem call_preemptive_error_escapes :
    (authPre.call envFail reqEx).2 =
      Except.error (PyErr.KerberosExchangeError
        "initiating context failed: no credentials cache") := rfl

/-- C5 (amended): a `KerberosExchangeError` during header generation is
caught on the 401-handling path — `authenticate_user` returns the original
response unchanged — but on the preemptive path `__call__` does not catch
it, and it propagates to the caller. -/
theorem kerberos_exchange_error_disposition
    (a : HTTPKerberosAuth) (env : Env) (r : Response) (req : Request) :
    (∀ m, (a.generate_request_header (some r) r.url.hostname false
        env.gss).2 = Except.error m →
      a.authenticate_user env r =
        ((a.generate_request_header (some r) r.url.hostname false
          env.gss).1, r)) ∧
    (a.force_preemptive = true →
      ∀ m, (a.generate_request_header none req.url.hostname true
          env.gss).2 = Except.error m →
        (a.call env req).2 =
          Except.error (PyErr.KerberosExchangeError m)) := by
  constructor
  · intro m hm
    rw [authenticate_user_eq]
    rcases hgen : a.generate_request_header (some r) r.url.hostname false
      env.gss with ⟨a1, res⟩
    rw [hgen] at hm
    cases res with
    | error m2 => rfl
    | ok hd => exact absurd hm (by simp)
  · intro hpre m hm
    rw [call_eq, if_pos hpre]
    rcases hgen : a.generate_request_header none req.url.hostname true
      env.gss with ⟨a1, res⟩
    rw [hgen] at hm
    cases res with
    | error m2 =>
      have hmm : m2 = m := by simpa using hm
      rw [hmm]
    | ok hd => exact absurd hm (by simp)

/-- Witness for C5 (amended): the failing environment on both paths. -/
theorem kerberos_exchange_error_disposition_witness :
    (authEx.generate_request_header (some respChal)
        respChal.url.hostname false envFail.gss).2 =
      Except.error "initiating context failed: no credentials cache" ∧
    authPre.force_preemptive = true ∧
    (authPre.generate_request_header none reqEx.url.hostname true
        envFail.gss).2 =
      Except.error "initiating context failed: no credentials cache" ∧
    authEx.authenticate_user envFail respChal =
      ((authEx.generate_request_header (some respChal)
        respChal.url.hostname false envFail.gss).1, respChal) ∧
    (authPre.call envFail reqEx).2 =
      Except.error (PyErr.KerberosExchangeError
        "initiating context failed: no credentials cache") :=
  ⟨rfl, rfl, rfl,
    (kerberos_exchange_error_disposition authEx envFail respChal reqEx).1
      "initiating context failed: no credentials cache" rfl,
    (kerberos_exchange_error_disposition authPre envFail respChal reqEx).2
      rfl "initiating context failed: no credentials cache" rfl⟩

/-! ## C7: the per-host context map -/

/-- `dictSet` then `dictGet` of the same key yields the new value. -/
theorem dictGet_dictSet_self {α : Type} (m : List (String × α)) (k : String)
    (v : α) : dictGet (dictSet m k v) k = some v := by
  induction m with
  | nil => simp [dictGet, dictSet]
  | cons kv rest ih =>
    by_cases h : kv.1 = k
    · simp [dictGet, dictSet, h]
    · simpa [dictGet, dictSet, h] using ih

/-- `dictSet` leaves lookups of every other key unchanged. -/
theorem dictGet_dictSet_ne {α : Type} (m : List (String × α)) (k k2 : String)
    (v : α) (h : k2 ≠ k) : dictGet (dictSet m k v) k2 = dictGet m k2 := by
  have h' : ¬ (k = k2) := fun hc => h hc.symm
  induction m with
  | nil =>
    unfold dictGet dictSet
    rw [List.find?_cons_of_neg _ (by simpa using h')]
  | cons kv rest ih =>
    unfold dictSet
    by_cases hk : kv.1 = k
    · rw [if_pos hk]
      unfold dictGet
      have hkk2 : ¬ (kv.1 = k2) := by rw [hk]; exact h'
      rw [List.find?_cons_of_neg _ (by simpa using h'),
        List.find?_cons_of_neg _ (by simpa using hkk2)]
    · rw [if_neg hk]
      unfold dictGet
      by_cases hk2 : kv.1 = k2
      · rw [List.find?_cons_of_pos _ (by simpa using hk2),
          List.find?_cons_of_pos _ (by simpa using hk2)]
      · rw [List.find?_cons_of_neg _ (by simpa using hk2),
          List.find?_cons_of_neg _ (by simpa using hk2)]
        exact ih

/-- A key of the updated dictionary is a key of the original or the updated
key itself. -/
theorem mem_keys_dictSet {α : Type} (m : List (String × α)) (k x : String)
    (v : α) (hx : x ∈ (dictSet m k v).map Prod.fst) :
    x ∈ m.map Prod.fst ∨ x = k := by
  induction m with
  | nil =>
    simp only [dictSet] at hx
    rw [List.map_cons, List.map_nil, List.mem_singleton] at hx
    exact Or.inr hx
  | cons kv rest ih =>
    simp only [dictSet] at hx
    by_cases hk : kv.1 = k
    · rw [if_pos hk, List.map_cons] at hx
      rcases List.mem_cons.mp hx with hx | hx
      · exact Or.inr hx
      · exact Or.inl (by rw [List.map_cons]; exact List.mem_cons.mpr (Or.inr hx))
    · rw [if_neg hk, List.map_cons] at hx
      rcases List.mem_cons.mp hx with hx | hx
      · exact Or.inl (by rw [List.map_cons]; exact List.mem_cons.mpr (Or.inl hx))
      · rcases ih hx with hin | heq
        · exact Or.inl (by
            rw [List.map_cons]
            exact List.mem_cons.mpr (Or.inr hin))
        · exact Or.inr heq

/-- `dictSet` keeps the keys of the dictionary distinct. -/
theorem nodup_keys_dictSet {α : Type} (m : List (String × α)) (k : String)
    (v : α) (h : (m.map Prod.fst).Nodup) :
    ((dictSet m k v).map Prod.fst).Nodup := by
  induction m with
  | nil => simp [dictSet]
  | cons kv rest ih =>
    rcases List.nodup_cons.mp h with ⟨hnotin, hrest⟩
    by_cases hk : kv.1 = k
    · simp only [dictSet, if_pos hk, List.map_cons]
      refine List.nodup_cons.mpr ⟨?_, hrest⟩
      rw [← hk]
      exact hnotin
    · simp only [dictSet, if_neg hk, List.map_cons]
      refine List.nodup_cons.mpr ⟨?_, ih hrest⟩
      intro hmem
      rcases mem_keys_dictSet rest k kv.1 v hmem with hin | heq
      · exact hnotin hin
      · exact hk heq

/-- The context-map facts C7 asserts across one handler operation: no
host's entry is ever removed, and distinctness of the host keys — at most
one stored context per host — is preserved. -/
def ContextPreserves (m m2 : List (String × SecurityContext)) : Prop :=
  (∀ k, (dictGet m k).isSome = true → (dictGet m2 k).isSome = true) ∧
  ((m.map Prod.fst).Nodup → (m2.map Prod.fst).Nodup)

/-- `ContextPreserves` is reflexive. -/
theorem contextPreserves_refl (m : List (String × SecurityContext)) :
    ContextPreserves m m := ⟨fun _ h => h, id⟩

/-- `ContextPreserves` is transitive. -/
theorem contextPreserves_trans (m1 m2 m3 : List (String × SecurityContext))
    (h12 : ContextPreserves m1 m2) (h23 : ContextPreserves m2 m3) :
    ContextPreserves m1 m3 :=
  ⟨fun k hk => h23.1 k (h12.1 k hk), fun hn => h23.2 (h12.2 hn)⟩

/-- Overwriting one host's entry preserves the context-map facts. -/
theorem contextPreserves_dictSet (m : List (String × SecurityContext))
    (k : String) (v : SecurityContext) :
    ContextPreserves m (dictSet m k v) := by
  constructor
  · intro k2 hk2
    by_cases h : k2 = k
    · rw [h, dictGet_dictSet_self]
      rfl
    · rw [dictGet_dictSet_ne m k k2 v h]
      exact hk2
  · exact nodup_keys_dictSet m k v

/-- `generate_request_header` with the stage outcomes written out. -/
theorem generate_request_header_eq (a : HTTPKerberosAuth)
    (resp? : Option Response) (host : String) (pre : Bool) (genv : GssEnv) :
    a.generate_request_header resp? host pre genv =
      match (if a.principal.isSome then genv.credentials
          else Except.ok ()) with
      | Except.error msg =>
        (a, Except.error ("acquiring credentials failed: " ++ msg))
      | Except.ok _ =>
        match genv.newContext with
        | Except.error msg =>
          (a, Except.error ("initiating context failed: " ++ msg))
        | Except.ok ctx =>
          match ctx.step (if pre then none
              else match resp? with
                | some r => negotiate_value r
                | none => none) with
          | Except.error msg =>
            ({ a with context := dictSet a.context host ctx },
              Except.error ("stepping context failed: " ++ msg))
          | Except.ok g =>
            ({ a with context := dictSet a.context host ctx },
              Except.ok ("Negotiate " ++ g)) :=
  rfl

/-- `generate_request_header` past the first two stages: only the stepping
stage remains, and the new context is already stored. -/
theorem generate_request_header_ok_ok (a : HTTPKerberosAuth)
    (resp? : Option Response) (host : String) (pre : Bool) (genv : GssEnv)
    (ctx : SecurityContext)
    (hcred : (if a.principal.isSome then genv.credentials
        else Except.ok ()) = Except.ok ())
    (hctx : genv.newContext = Except.ok ctx) :
    a.generate_request_header resp? host pre genv =
      match ctx.step (if pre then none
          else match resp? with
            | some r => negotiate_value r
            | none => none) with
      | Except.error msg =>
        ({ a with context := dictSet a.context host ctx },
          Except.error ("stepping context failed: " ++ msg))
      | Except.ok g =>
        ({ a with context := dictSet a.context host ctx },
          Except.ok ("Negotiate " ++ g)) := by
  rw [generate_request_header_eq, hcred, hctx]

/-- When credentials and context initiation succeed, the new context is
stored under `host`, whatever the stepping stage does. -/
theorem generate_overwrites (a : HTTPKerberosAuth) (resp? : Option Response)
    (host : String) (pre : Bool) (genv : GssEnv) (ctx : SecurityContext)
    (hcred : (if a.principal.isSome then genv.credentials
        else Except.ok ()) = Except.ok ())
    (hctx : genv.newContext = Except.ok ctx) :
    ((a.generate_request_header resp? host pre genv).1).context =
      dictSet a.context host ctx := by
  rw [generate_request_header_ok_ok a resp? host pre genv ctx hcred hctx]
  cases ctx.step (if pre then none
      else match resp? with
        | some r => negotiate_value r
        | none => none) <;>
    rfl

/-- `generate_request_header` preserves the context-map facts in every
outcome. -/
theorem generate_context_preserved (a : HTTPKerberosAuth)
    (resp? : Option Response) (host : String) (pre : Bool) (genv : GssEnv) :
    ContextPreserves a.context
      ((a.generate_request_header resp? host pre genv).1).context := by
  cases hcred : (if a.principal.isSome then genv.credentials
      else Except.ok ()) with
  | error m =>
    rw [generate_request_header_eq, hcred]
    exact contextPreserves_refl _
  | ok u =>
    cases hctx : genv.newContext with
    | error m =>
      rw [generate_request_header_eq, hcred, hctx]
      exact contextPreserves_refl _
    | ok ctx =>
      have hc2 : (if a.principal.isSome then genv.credentials
          else Except.ok ()) = Except.ok () := by rw [hcred]
      rw [generate_request_header_ok_ok a resp? host pre genv ctx hc2 hctx]
      cases ctx.step (if pre then none
          else match resp? with
            | some r => negotiate_value r
            | none => none) with
      | error m => exact contextPreserves_dictSet a.context host ctx
      | ok g => exact contextPreserves_dictSet a.context host ctx

/-- `authenticate_user` preserves the context-map facts. -/
theorem authenticate_user_context_preserved (a : HTTPKerberosAuth)
    (env : Env) (r : Response) :
    ContextPreserves a.context
      ((a.authenticate_user env r).1).context := by
  rw [authenticate_user_eq]
  rcases hgen : a.generate_request_header (some r) r.url.hostname false
    env.gss with ⟨a1, res⟩
  have hp : ContextPreserves a.context a1.context := by
    have hg := generate_context_preserved a (some r) r.url.hostname false
      env.gss
    rw [hgen] at hg
    exact hg
  cases res with
  | error m => exact hp
  | ok hd => exact hp

/-- `handle_401` preserves the context-map facts. -/
theorem handle_401_context_preserved (a : HTTPKerberosAuth) (env : Env)
    (r : Response) :
    ContextPreserves a.context ((a.handle_401 env r).1).context := by
  unfold HTTPKerberosAuth.handle_401
  by_cases hch : (negotiate_value r).isSome = true
  · rw [if_pos hch]
    exact authenticate_user_context_preserved a env r
  · rw [if_neg hch]
    exact contextPreserves_refl _

/-- `handle_response` preserves the context-map facts, by induction on the
remaining retry budget. -/
theorem handle_response_context_preserved (env : Env) :
    ∀ (fuel : Nat) (a : HTTPKerberosAuth) (r : Response) (n : Nat),
      2 - n ≤ fuel →
      ContextPreserves a.context
        ((a.handle_response env r n).1).context := by
  intro fuel
  induction fuel with
  | zero =>
    intro a r n hn
    rw [handle_response_eq, if_neg (fun hc => absurd hc.2 (by omega))]
    by_cases h4 : r.status_code = 401
    · rw [if_pos h4]
      exact contextPreserves_refl _
    · rw [if_neg h4]
      exact contextPreserves_refl _
  | succ fuel ih =>
    intro a r n hn
    rw [handle_response_eq]
    by_cases hc : r.status_code = 401 ∧ n < 2
    · rw [if_pos hc]
      exact contextPreserves_trans _ _ _
        (handle_401_context_preserved a env r)
        (ih (a.handle_401 env r).1 (a.handle_401 env r).2 (n + 1) (by omega))
    · rw [if_neg hc]
      by_cases h4 : r.status_code = 401
      · rw [if_pos h4]
        exact contextPreserves_refl _
      · rw [if_neg h4]
        exact contextPreserves_refl _

/-- `call` preserves the context-map facts. -/
theorem call_context_preserved (a : HTTPKerberosAuth) (env : Env)
    (req : Request) :
    ContextPreserves a.context ((a.call env req).1).context := by
  rw [call_eq]
  by_cases hp : a.force_preemptive = true
  · rw [if_pos hp]
    rcases hgen : a.generate_request_header none req.url.hostname true
      env.gss with ⟨a1, res⟩
    have hcp : ContextPreserves a.context a1.context := by
      have hg := generate_context_preserved a none req.url.hostname true
        env.gss
      rw [hgen] at hg
      exact hg
    cases res with
    | error m => exact hcp
    | ok hd => exact hcp
  · rw [if_neg hp]
    exact contextPreserves_refl _

/-- C7: the handler's context map holds at most one context per host:
a `generate_request_header` call whose initiation stage succeeds overwrites
the entry under its host and leaves every other host's entry unchanged,
and no handler operation removes an entry or duplicates a host key. -/
theorem context_map_discipline
    (a : HTTPKerberosAuth) (env : Env) (genv : GssEnv) (r : Response)
    (req : Request) (host : String) (resp? : Option Response) (pre : Bool)
    (n : Nat) :
    (∀ ctx,
      (if a.principal.isSome then genv.credentials else Except.ok ())
          = Except.ok () →
      genv.newContext = Except.ok ctx →
      dictGet ((a.generate_request_header resp? host pre genv).1).context
          host = some ctx ∧
      ∀ h2, h2 ≠ host →
        dictGet ((a.generate_request_header resp? host pre genv).1).context
            h2 = dictGet a.context h2) ∧
    ContextPreserves a.context
      ((a.generate_request_header resp? host pre genv).1).context ∧
    ContextPreserves a.context ((a.authenticate_user env r).1).context ∧
    ContextPreserves a.context ((a.handle_401 env r).1).context ∧
    ContextPreserves a.context ((a.handle_response env r n).1).context ∧
    ContextPreserves a.context ((a.call env req).1).context := by
  refine ⟨?_, generate_context_preserved a resp? host pre genv,
    authenticate_user_context_preserved a env r,
    handle_401_context_preserved a env r,
    handle_response_context_preserved env 2 a r n (by omega),
    call_context_preserved a env req⟩
  intro ctx hcred hctx
  rw [generate_overwrites a resp? host pre genv ctx hcred hctx]
  exact ⟨dictGet_dictSet_self a.context host ctx,
    fun h2 hne => dictGet_dictSet_ne a.context host h2 ctx hne⟩

/-- Witness for C7: a fresh context is stored for a new host, the existing
host's entry survives, and `handle_response` keeps the map facts. -/
theorem context_map_discipline_witness :
    (if authEx.principal.isSome then (GssEnv.mk (Except.ok ())
        (Except.ok ctxFail)).credentials else Except.ok ())
      = Except.ok () ∧
    (GssEnv.mk (Except.ok ()) (Except.ok ctxFail)).newContext
      = Except.ok ctxFail ∧
    dictGet ((authEx.generate_request_header none "other.host" true
        (GssEnv.mk (Except.ok ()) (Except.ok ctxFail))).1).context
        "other.host" = some ctxFail ∧
    dictGet ((authEx.generate_request_header none "other.host" true
        (GssEnv.mk (Except.ok ()) (Except.ok ctxFail))).1).context
        "example.org" = dictGet authEx.context "example.org" ∧
    ContextPreserves authEx.context
      ((authEx.handle_response envEx respChal 0).1).context :=
  ⟨rfl, rfl,
    ((context_map_discipline authEx envEx
        (GssEnv.mk (Except.ok ()) (Except.ok ctxFail)) respChal reqEx
        "other.host" none true 0).1 ctxFail rfl rfl).1,
    ((context_map_discipline authEx envEx
        (GssEnv.mk (Except.ok ()) (Except.ok ctxFail)) respChal reqEx
        "other.host" none true 0).1 ctxFail rfl rfl).2 "example.org"
      (by decide),
    (context_map_discipline authEx envEx
        (GssEnv.mk (Except.ok ()) (Except.ok ctxFail)) respChal reqEx
        "other.host" none true 0).2.2.2.2.1⟩

end RequestsGssapi
